import Mathlib

/-!
Shallow embedding of the quiz-session engine of a Discord quiz bot
(`quiz_system.py`, with its collaborators `config.py`, `database.py`
and the input-validation block of the `start_quiz` command in `bot.py`).

Modelling conventions:
* The in-memory live-session table `self.active_sessions` (a Python dict
  keyed by session id) is a partial map `Nat → Option Session`.
* The durable `active_quizzes` table is the list of session ids that have
  a row; `DELETE ... WHERE session_id = ?` removes every matching row.
* The durable `quiz_attempts` table is an append-only list of `Attempt`s.
* Python floats (response times, accuracy thresholds) are embedded as ℚ
  with exact arithmetic.  For the comparisons the engine performs
  (`accuracy >= 0.8`, `accuracy <= 0.4` with denominators bounded by the
  session length ≤ 50, and the time-bonus formula) exact rational
  comparison agrees with IEEE double comparison at these magnitudes.
* A Python function that raises is embedded as returning a `raised`
  outcome together with the state as already mutated at the raise point;
  the fallibility of the external Attempt Recorder is an explicit
  `recordOk : Bool` parameter of `submit_answer`.
* `uuid.uuid4()` and `datetime.now()` are nondeterministic inputs; they
  are passed in as explicit parameters (`sid`, `now`).
-/

/-- `config.py`: `POINTS_EASY = 1`. -/
def POINTS_EASY : Nat := 1

/-- `config.py`: `POINTS_MEDIUM = 2`. -/
def POINTS_MEDIUM : Nat := 2

/-- `config.py`: `POINTS_HARD = 3`. -/
def POINTS_HARD : Nat := 3

/-- `config.py`: `DIFFICULTY_THRESHOLD_UP = 0.8` (exact as a rational). -/
def DIFFICULTY_THRESHOLD_UP : ℚ := 8 / 10

/-- `config.py`: `DIFFICULTY_THRESHOLD_DOWN = 0.4` (exact as a rational). -/
def DIFFICULTY_THRESHOLD_DOWN : ℚ := 4 / 10

/-- A row of the `questions` table. -/
structure Question where
  questionId : Nat
  chapterId : Nat
  questionText : String
  optionA : String
  optionB : String
  optionC : String
  optionD : String
  correctOption : String
  difficulty : Nat
  explanation : String
deriving DecidableEq, Repr

/-- A row of the `user_question_history` table joined with its timestamp. -/
structure HistoryEntry where
  userId : Nat
  questionId : Nat
  lastAttempted : ℚ
deriving DecidableEq, Repr

/-- The read-only part of the data store seen by the engine. -/
structure Env where
  questions : List Question
  history : List HistoryEntry

/-- A row of the durable `quiz_attempts` table, as written by
`record_quiz_attempt` (`database.py`). -/
structure Attempt where
  userId : Nat
  chapterId : Nat
  questionId : Nat
  userAnswer : String
  isCorrect : Bool
  responseTime : ℚ
  difficulty : Nat
  pointsEarned : Nat
deriving DecidableEq, Repr

/-- The per-difficulty tallies `{1: _, 2: _, 3: _}` kept in the session
dicts `questions_by_difficulty` and `correct_by_difficulty`. -/
structure DiffCounts where
  d1 : Nat
  d2 : Nat
  d3 : Nat
deriving DecidableEq, Repr

/-- Dict read `counts[d]`.  On the paths the engine executes, `d` is the
difficulty of a stored question and the `points_map` lookup has already
succeeded, so `d ∈ {1,2,3}`; other keys never occur. -/
def DiffCounts.get (c : DiffCounts) : Nat → Nat
  | 1 => c.d1
  | 2 => c.d2
  | 3 => c.d3
  | _ => 0

/-- Dict update `counts[d] += 1` (keys other than 1,2,3 unreachable, see
`DiffCounts.get`). -/
def DiffCounts.inc (c : DiffCounts) : Nat → DiffCounts
  | 1 => { c with d1 := c.d1 + 1 }
  | 2 => { c with d2 := c.d2 + 1 }
  | 3 => { c with d3 := c.d3 + 1 }
  | _ => c

/-- `sum(counts.values())`. -/
def DiffCounts.sum (c : DiffCounts) : Nat :=
  c.d1 + c.d2 + c.d3

/-- One entry of `self.active_sessions` (`quiz_system.py`, lines 45-59). -/
structure Session where
  userId : Nat
  chapterId : Nat
  currentQuestion : Nat
  totalQuestions : Int
  score : Nat
  correctStreak : Nat
  wrongStreak : Nat
  difficultyMode : String
  currentDifficulty : Nat
  questionsByDifficulty : DiffCounts
  correctByDifficulty : DiffCounts
  responseTimes : List ℚ
  startedAt : ℚ
deriving DecidableEq, Repr

/-- The engine-visible mutable state: the in-memory live table plus the
durable `active_quizzes` and `quiz_attempts` tables. -/
structure EngineState where
  activeSessions : Nat → Option Session
  activeQuizzes : List Nat
  attempts : List Attempt

/-- Python dict write `self.active_sessions[sid] = s`. -/
def setSession (f : Nat → Option Session) (sid : Nat) (s : Session) :
    Nat → Option Session :=
  fun x => if x = sid then some s else f x

/-- Python dict delete `del self.active_sessions[sid]`. -/
def removeSession (f : Nat → Option Session) (sid : Nat) :
    Nat → Option Session :=
  fun x => if x = sid then none else f x

/-- The fresh session dict built by `start_quiz` (lines 45-59). -/
def initSession (userId chapterId : Nat) (difficultyMode : String)
    (currentDifficulty : Nat) (totalQuestions : Int) (now : ℚ) : Session :=
  { userId := userId
    chapterId := chapterId
    currentQuestion := 0
    totalQuestions := totalQuestions
    score := 0
    correctStreak := 0
    wrongStreak := 0
    difficultyMode := difficultyMode
    currentDifficulty := currentDifficulty
    questionsByDifficulty := ⟨0, 0, 0⟩
    correctByDifficulty := ⟨0, 0, 0⟩
    responseTimes := []
    startedAt := now }

/-- `QuizSystem.start_quiz` (lines 24-61).  `difficulty == "mix"` starts at
level 1, otherwise `int(difficulty)` is parsed — a parse failure raises
`ValueError` before any state is written (result `none`).  On success the
durable `active_quizzes` row is inserted and the session enters the live
table; the fresh session id (from `uuid.uuid4()`) is a parameter. -/
def QuizSystem.start_quiz (st : EngineState) (sid userId chapterId : Nat)
    (difficulty : String) (totalQuestions : Int) (now : ℚ) :
    EngineState × Option Nat :=
  match (if difficulty = "mix" then some 1 else difficulty.toNat?) with
  | none => (st, none)
  | some currentDifficulty =>
      ({ st with
          activeQuizzes := st.activeQuizzes ++ [sid]
          activeSessions := setSession st.activeSessions sid
            (initSession userId chapterId difficulty currentDifficulty
              totalQuestions now) },
        some sid)

/-- The SQL filter of `DatabaseManager.get_next_question` (`database.py`,
lines 337-347): chapter match, plus a difficulty match that is only added
when the Python value `difficulty` is truthy (`if difficulty:`), i.e. not
`None` and not `0`. -/
def matchesDifficulty (difficulty : Option Nat) (q : Question) : Bool :=
  match difficulty with
  | none => true
  | some d => if d = 0 then true else q.difficulty == d

/-- The candidate rows of `DatabaseManager.get_next_question` before the
`ORDER BY`/`LIMIT 1`. -/
def candidates (env : Env) (chapterId : Nat) (difficulty : Option Nat) :
    List Question :=
  env.questions.filter
    (fun q => q.chapterId == chapterId && matchesDifficulty difficulty q)

/-- `uqh.last_attempted` for the LEFT JOIN on `user_question_history`. -/
def lastAttempted (env : Env) (userId qid : Nat) : Option ℚ :=
  (env.history.find? (fun h => h.userId == userId && h.questionId == qid)).map
    (fun h => h.lastAttempted)

/-- Insertion step for the `uqh.last_attempted ASC` sort key. -/
def insertByTime (key : Question → ℚ) (q : Question) :
    List Question → List Question
  | [] => [q]
  | x :: xs => if key q ≤ key x then q :: x :: xs else x :: insertByTime key q xs

/-- Stable sort by ascending key, implementing `uqh.last_attempted ASC`. -/
def sortByTime (key : Question → ℚ) : List Question → List Question
  | [] => []
  | x :: xs => insertByTime key x (sortByTime key xs)

/-- The `ORDER BY` of `DatabaseManager.get_next_question`: rows with no
history (`last_attempted IS NULL`) sort before attempted ones; attempted
ones sort by least-recently-attempted; the trailing `RANDOM()` tie-break
is modelled as the stored row order. -/
def orderCandidates (env : Env) (userId : Nat) (qs : List Question) :
    List Question :=
  qs.filter (fun q => (lastAttempted env userId q.questionId).isNone) ++
    sortByTime (fun q => (lastAttempted env userId q.questionId).getD 0)
      (qs.filter (fun q => (lastAttempted env userId q.questionId).isSome))

/-- `DatabaseManager.get_next_question` (`database.py`, lines 332-359):
the top-ranked candidate (`LIMIT 1`), or `None` when no row qualifies. -/
def Database.get_next_question (env : Env) (userId chapterId : Nat)
    (difficulty : Option Nat) : Option Question :=
  (orderCandidates env userId (candidates env chapterId difficulty)).head?

/-- The raw `SELECT * FROM questions WHERE question_id = ?` of
`submit_answer` (lines 105-111): first matching row or `None`. -/
def Database.findQuestion (env : Env) (qid : Nat) : Option Question :=
  env.questions.find? (fun q => q.questionId == qid)

/-- The enriched question dict returned by `QuizSystem.get_next_question`
(lines 88-92): the stored row plus session bookkeeping fields. -/
structure EnrichedQuestion where
  question : Question
  sessionId : Nat
  questionNumber : Nat
  totalQuestions : Int
  currentDifficulty : Nat
deriving DecidableEq, Repr

/-- `QuizSystem.get_next_question` (lines 63-94): `None` for an unknown
session id; `None` when the session already reached its target; otherwise
query the store at the session's current difficulty, retry once with no
difficulty filter when that is empty, and return the enriched row (or
`None` when the retry is also empty).  The engine state is not mutated. -/
def QuizSystem.get_next_question (env : Env) (st : EngineState) (sid : Nat) :
    Option EnrichedQuestion :=
  match st.activeSessions sid with
  | none => none
  | some s =>
      if (s.currentQuestion : Int) ≥ s.totalQuestions then none
      else
        let first := Database.get_next_question env s.userId s.chapterId
          (some s.currentDifficulty)
        let chosen := match first with
          | none => Database.get_next_question env s.userId s.chapterId none
          | some q => some q
        chosen.map (fun q =>
          { question := q
            sessionId := sid
            questionNumber := s.currentQuestion + 1
            totalQuestions := s.totalQuestions
            currentDifficulty := s.currentDifficulty })

/-- `points_map = {1: POINTS_EASY, 2: POINTS_MEDIUM, 3: POINTS_HARD}`
(line 120); a lookup at any other key raises `KeyError`. -/
def pointsMap : Nat → Option Nat
  | 1 => some POINTS_EASY
  | 2 => some POINTS_MEDIUM
  | 3 => some POINTS_HARD
  | _ => none

/-- Python `str.lower()`, modelled as its character-wise case mapping
(the engine compares the A-D option letters, on which this coincides with
the full Unicode lowering Python performs). -/
def strLower (s : String) : String :=
  ⟨s.data.map Char.toLower⟩

/-- Line 117: `user_answer.lower() == question['correct_option'].lower()`. -/
def gradeAnswer (q : Question) (userAnswer : String) : Bool :=
  strLower userAnswer == strLower q.correctOption

/-- The in-place session mutation of lines 124-135: advance the progress
counter, per-difficulty tally and response-time log, then update score and
streaks according to correctness. -/
def updateStats (s : Session) (q : Question) (responseTime : ℚ)
    (isCorrect : Bool) (pointsEarned : Nat) : Session :=
  let s1 := { s with
    currentQuestion := s.currentQuestion + 1
    questionsByDifficulty := s.questionsByDifficulty.inc q.difficulty
    responseTimes := s.responseTimes ++ [responseTime] }
  if isCorrect then
    { s1 with
      score := s1.score + pointsEarned
      correctStreak := s1.correctStreak + 1
      wrongStreak := 0
      correctByDifficulty := s1.correctByDifficulty.inc q.difficulty }
  else
    { s1 with correctStreak := 0, wrongStreak := s1.wrongStreak + 1 }

/-- The local `accuracy` of `_adjust_difficulty` (line 182): cumulative
correct-answer ratio at the session's current difficulty level. -/
def levelAccuracy (s : Session) : ℚ :=
  (s.correctByDifficulty.get s.currentDifficulty : ℚ) /
    (s.questionsByDifficulty.get s.currentDifficulty : ℚ)

/-- `QuizSystem._adjust_difficulty` (lines 167-188): in mix mode, once at
least 3 questions (globally, and at the current level) have been answered,
promote when the cumulative accuracy at the current level reaches 0.8 and
demote when it falls to 0.4. -/
def QuizSystem.adjust_difficulty (s : Session) : Session :=
  let currentDiff := s.currentDifficulty
  let recentWindow := min 5 s.currentQuestion
  if recentWindow < 3 then s
  else if 3 ≤ s.questionsByDifficulty.get currentDiff then
    if DIFFICULTY_THRESHOLD_UP ≤ levelAccuracy s ∧ currentDiff < 3 then
      { s with currentDifficulty := min 3 (currentDiff + 1) }
    else if levelAccuracy s ≤ DIFFICULTY_THRESHOLD_DOWN ∧ 1 < currentDiff then
      { s with currentDifficulty := max 1 (currentDiff - 1) }
    else s
  else s

/-- The final-statistics record built by `_calculate_final_stats`
(lines 190-221).  `accuracy` and `avgResponseTime` are kept exact; the
source rounds them to 2 decimals for display only. -/
structure FinalStats where
  totalQuestions : Nat
  correctAnswers : Nat
  accuracy : ℚ
  finalScore : Int
  timeBonus : Int
  avgResponseTime : ℚ
  difficultyBreakdown : DiffCounts
  quizDuration : ℚ
deriving DecidableEq, Repr

/-- The pure computation of `_calculate_final_stats` (lines 190-216);
`int(...)` truncates, which on the positive values of the taken branch is
the floor.  The session destruction the Python method performs at its end
is `QuizSystem.cleanup_session`, applied by the callers. -/
def QuizSystem.calculate_final_stats (s : Session) (now : ℚ) : FinalStats :=
  let totalQuestions := s.currentQuestion
  let totalCorrect := s.correctByDifficulty.sum
  let accuracy : ℚ :=
    if 0 < totalQuestions then ((totalCorrect : ℚ) / totalQuestions) * 100 else 0
  let avgResponseTime : ℚ :=
    if s.responseTimes ≠ [] then s.responseTimes.sum / s.responseTimes.length
    else 0
  let timeBonus : Int :=
    if avgResponseTime < 10 then min 50 (Int.floor ((10 - avgResponseTime) * 5))
    else 0
  { totalQuestions := totalQuestions
    correctAnswers := totalCorrect
    accuracy := accuracy
    finalScore := (s.score : Int) + timeBonus
    timeBonus := timeBonus
    avgResponseTime := avgResponseTime
    difficultyBreakdown := s.questionsByDifficulty
    quizDuration := now - s.startedAt }

/-- `QuizSystem._cleanup_session` (lines 223-235): remove the live-table
entry and delete the durable `active_quizzes` rows for this session. -/
def QuizSystem.cleanup_session (st : EngineState) (sid : Nat) : EngineState :=
  { st with
    activeSessions := removeSession st.activeSessions sid
    activeQuizzes := st.activeQuizzes.filter (fun x => x != sid) }

/-- The feedback dict of `submit_answer` (lines 149-158); `quiz_complete`
and `final_stats` are only present (here: `true`/`some`) on the completing
call. -/
structure SubmitResponse where
  isCorrect : Bool
  correctAnswer : String
  explanation : String
  pointsEarned : Nat
  currentScore : Nat
  questionNumber : Nat
  totalQuestions : Int
  streak : Nat
  quizComplete : Bool
  finalStats : Option FinalStats
deriving DecidableEq, Repr

/-- An exception escaping `submit_answer`: the `KeyError` of the
`points_map` lookup, or a storage failure raised by the Attempt
Recorder. -/
inductive PyError where
  | keyError : PyError
  | recordFailure : PyError
deriving DecidableEq, Repr

/-- Outcome of `submit_answer`: an `{'error': msg}` dict, a propagated
exception, or the feedback dict. -/
inductive SubmitResult where
  | error : String → SubmitResult
  | raised : PyError → SubmitResult
  | ok : SubmitResponse → SubmitResult
deriving DecidableEq, Repr

/-- `QuizSystem.submit_answer` (lines 96-165).  The session mutation of
lines 124-135 happens before the Attempt Recorder is called (line 138);
`recordOk = false` models the recorder raising, which aborts the call
with the mutation already applied and nothing appended to
`quiz_attempts`.  On success the attempt row is appended, mix mode runs
the difficulty adapter, and reaching the target question count attaches
the final statistics and destroys the session. -/
def QuizSystem.submit_answer (env : Env) (st : EngineState) (sid qid : Nat)
    (userAnswer : String) (responseTime : ℚ) (recordOk : Bool) (now : ℚ) :
    EngineState × SubmitResult :=
  match st.activeSessions sid with
  | none => (st, .error "Invalid session")
  | some session =>
      match Database.findQuestion env qid with
      | none => (st, .error "Question not found")
      | some q =>
          let isCorrect := gradeAnswer q userAnswer
          match pointsMap q.difficulty with
          | none => (st, .raised .keyError)
          | some pts =>
              let pointsEarned := if isCorrect then pts else 0
              let s2 := updateStats session q responseTime isCorrect pointsEarned
              let st1 := { st with activeSessions := setSession st.activeSessions sid s2 }
              if recordOk then
                let attempt : Attempt :=
                  { userId := session.userId
                    chapterId := session.chapterId
                    questionId := qid
                    userAnswer := userAnswer
                    isCorrect := isCorrect
                    responseTime := responseTime
                    difficulty := q.difficulty
                    pointsEarned := pointsEarned }
                let st2 := { st1 with attempts := st1.attempts ++ [attempt] }
                let s3 := if session.difficultyMode = "mix" then
                    QuizSystem.adjust_difficulty s2
                  else s2
                let st3 := { st2 with activeSessions := setSession st2.activeSessions sid s3 }
                let response : SubmitResponse :=
                  { isCorrect := isCorrect
                    correctAnswer := q.correctOption
                    explanation := q.explanation
                    pointsEarned := pointsEarned
                    currentScore := s3.score
                    questionNumber := s3.currentQuestion
                    totalQuestions := s3.totalQuestions
                    streak := s3.correctStreak
                    quizComplete := false
                    finalStats := none }
                if (s3.currentQuestion : Int) ≥ s3.totalQuestions then
                  (QuizSystem.cleanup_session st3 sid,
                    SubmitResult.ok { response with
                      quizComplete := true
                      finalStats := some (QuizSystem.calculate_final_stats s3 now) })
                else (st3, .ok response)
              else (st1, .raised .recordFailure)

/-- `QuizSystem.get_session_info` (lines 237-239): a read-only lookup. -/
def QuizSystem.get_session_info (st : EngineState) (sid : Nat) :
    Option Session :=
  st.activeSessions sid

/-- Outcome of `end_quiz`. -/
inductive EndResult where
  | error : String → EndResult
  | ended : FinalStats → EndResult
deriving DecidableEq, Repr

/-- `QuizSystem.end_quiz` (lines 241-247): unknown token yields the
`Invalid session` error dict; otherwise final statistics are computed and
the session destroyed. -/
def QuizSystem.end_quiz (st : EngineState) (sid : Nat) (now : ℚ) :
    EngineState × EndResult :=
  match st.activeSessions sid with
  | none => (st, .error "Invalid session")
  | some s =>
      (QuizSystem.cleanup_session st sid,
        .ended (QuizSystem.calculate_final_stats s now))

/-- Outcome of the `!start_quiz` command validation (`bot.py`). -/
inductive StartResult where
  | invalidDifficulty : StartResult
  | invalidCount : StartResult
  | startFailed : StartResult
  | started : Nat → StartResult
deriving DecidableEq, Repr

/-- The validation-and-start block of the `!start_quiz` command
(`bot.py`, lines 168-181): reject a difficulty outside
`{"1","2","3","mix"}`, then a question count outside `[1,50]`, before
calling `QuizSystem.start_quiz`; rejection touches no engine state. -/
def Bot.start_quiz (st : EngineState) (userId chapterId : Nat)
    (difficulty : String) (questions : Int) (sid : Nat) (now : ℚ) :
    EngineState × StartResult :=
  if difficulty ≠ "1" ∧ difficulty ≠ "2" ∧ difficulty ≠ "3" ∧ difficulty ≠ "mix" then
    (st, .invalidDifficulty)
  else if questions < 1 ∨ 50 < questions then (st, .invalidCount)
  else
    match QuizSystem.start_quiz st sid userId chapterId difficulty questions now with
    | (st2, some s) => (st2, .started s)
    | (st2, none) => (st2, .startFailed)

/-- One externally driven engine event, for trace-level invariants. -/
inductive Event where
  | start : Nat → Nat → Nat → String → Int → ℚ → Event
  | next : Nat → Event
  | submit : Nat → Nat → String → ℚ → Bool → ℚ → Event
  | endQ : Nat → ℚ → Event
  | info : Nat → Event

/-- State transition of one event.  `get_next_question` and
`get_session_info` do not mutate the engine state. -/
def applyEvent (env : Env) (st : EngineState) : Event → EngineState
  | .start sid uid ch d tq now => (QuizSystem.start_quiz st sid uid ch d tq now).1
  | .next _ => st
  | .submit sid qid ans rt ok now =>
      (QuizSystem.submit_answer env st sid qid ans rt ok now).1
  | .endQ sid now => (QuizSystem.end_quiz st sid now).1
  | .info _ => st

/-- The engine state before any session exists. -/
def initialState : EngineState :=
  { activeSessions := fun _ => none, activeQuizzes := [], attempts := [] }

/-- The engine state after a sequence of events, from a fresh start. -/
def runTrace (env : Env) (evs : List Event) : EngineState :=
  evs.foldl (applyEvent env) initialState

/-! ### Concrete fixtures used by witnesses and counterexamples -/

/-- A stored difficulty-2 question in chapter 7. -/
def qFix : Question :=
  { questionId := 1, chapterId := 7, questionText := "t", optionA := "a",
    optionB := "b", optionC := "c", optionD := "d", correctOption := "B",
    difficulty := 2, explanation := "exp" }

/-- A store holding only `qFix` and no attempt history. -/
def envFix : Env := { questions := [qFix], history := [] }

/-- The live session created by `start_quiz` for user 100 on chapter 7 in
mix mode with a target of 3 questions. -/
def sFix : Session := initSession 100 7 "mix" 1 3 0

/-- Engine state holding exactly the session `sFix` under token 0. -/
def stFix : EngineState := (QuizSystem.start_quiz initialState 0 100 7 "mix" 3 0).1

/-- Engine state with a live session on chapter 9, where the store has no
questions at all. -/
def stEmpty : EngineState := (QuizSystem.start_quiz initialState 0 100 9 "mix" 3 0).1

/-! ### Helper lemmas -/

@[simp] lemma setSession_self (f : Nat → Option Session) (sid : Nat) (s : Session) :
    setSession f sid s sid = some s := by
  simp [setSession]

lemma setSession_other (f : Nat → Option Session) (sid : Nat) (s : Session)
    (x : Nat) (h : x ≠ sid) : setSession f sid s x = f x := by
  simp [setSession, h]

@[simp] lemma removeSession_self (f : Nat → Option Session) (sid : Nat) :
    removeSession f sid sid = none := by
  simp [removeSession]

@[simp] lemma updateStats_currentQuestion (s : Session) (q : Question) (rt : ℚ)
    (c : Bool) (pe : Nat) :
    (updateStats s q rt c pe).currentQuestion = s.currentQuestion + 1 := by
  cases c <;> simp [updateStats]

@[simp] lemma updateStats_totalQuestions (s : Session) (q : Question) (rt : ℚ)
    (c : Bool) (pe : Nat) :
    (updateStats s q rt c pe).totalQuestions = s.totalQuestions := by
  cases c <;> simp [updateStats]

@[simp] lemma updateStats_responseTimes (s : Session) (q : Question) (rt : ℚ)
    (c : Bool) (pe : Nat) :
    (updateStats s q rt c pe).responseTimes = s.responseTimes ++ [rt] := by
  cases c <;> simp [updateStats]

@[simp] lemma updateStats_questionsByDifficulty (s : Session) (q : Question)
    (rt : ℚ) (c : Bool) (pe : Nat) :
    (updateStats s q rt c pe).questionsByDifficulty =
      s.questionsByDifficulty.inc q.difficulty := by
  cases c <;> simp [updateStats]

@[simp] lemma updateStats_currentDifficulty (s : Session) (q : Question)
    (rt : ℚ) (c : Bool) (pe : Nat) :
    (updateStats s q rt c pe).currentDifficulty = s.currentDifficulty := by
  cases c <;> simp [updateStats]

@[simp] lemma updateStats_difficultyMode (s : Session) (q : Question)
    (rt : ℚ) (c : Bool) (pe : Nat) :
    (updateStats s q rt c pe).difficultyMode = s.difficultyMode := by
  cases c <;> simp [updateStats]

lemma updateStats_true_fields (s : Session) (q : Question) (rt : ℚ) (pe : Nat) :
    (updateStats s q rt true pe).score = s.score + pe ∧
    (updateStats s q rt true pe).correctStreak = s.correctStreak + 1 ∧
    (updateStats s q rt true pe).wrongStreak = 0 ∧
    (updateStats s q rt true pe).correctByDifficulty =
      s.correctByDifficulty.inc q.difficulty := by
  simp [updateStats]

lemma updateStats_false_fields (s : Session) (q : Question) (rt : ℚ) (pe : Nat) :
    (updateStats s q rt false pe).score = s.score ∧
    (updateStats s q rt false pe).correctStreak = 0 ∧
    (updateStats s q rt false pe).wrongStreak = s.wrongStreak + 1 ∧
    (updateStats s q rt false pe).correctByDifficulty = s.correctByDifficulty := by
  simp [updateStats]

/-! ### C10 -/

/-- C10: whenever `submit_answer` fails because the session token is
unknown or the question id cannot be resolved in the question store, the
whole engine state — every live session, the durable markers, and the
attempt log — is returned unchanged, and the corresponding error dict is
the result, so no attempt is recorded. -/
theorem submit_answer_error_paths_leave_state_unchanged
    (env : Env) (st : EngineState) (sid qid : Nat) (ans : String) (rt : ℚ)
    (recordOk : Bool) (now : ℚ) :
    (st.activeSessions sid = none →
      QuizSystem.submit_answer env st sid qid ans rt recordOk now =
        (st, SubmitResult.error "Invalid session")) ∧
    (∀ s, st.activeSessions sid = some s →
      Database.findQuestion env qid = none →
      QuizSystem.submit_answer env st sid qid ans rt recordOk now =
        (st, SubmitResult.error "Question not found")) := by
  constructor
  · intro h
    simp [QuizSystem.submit_answer, h]
  · intro s hs hq
    simp [QuizSystem.submit_answer, hs, hq]

/-- Witness for C10 at a concrete state: token 42 is unknown, and question
99 does not exist for the live token 0. -/
theorem submit_answer_error_paths_witness :
    (stFix.activeSessions 42 = none ∧
      QuizSystem.submit_answer envFix stFix 42 1 "b" 2 true 0 =
        (stFix, SubmitResult.error "Invalid session")) ∧
    (stFix.activeSessions 0 = some sFix ∧
      Database.findQuestion envFix 99 = none ∧
      QuizSystem.submit_answer envFix stFix 0 99 "b" 2 true 0 =
        (stFix, SubmitResult.error "Question not found")) :=
  ⟨⟨rfl, (submit_answer_error_paths_leave_state_unchanged envFix stFix 42 1 "b" 2 true 0).1 rfl⟩,
    ⟨rfl, rfl,
      (submit_answer_error_paths_leave_state_unchanged envFix stFix 0 99 "b" 2 true 0).2 sFix rfl rfl⟩⟩

/-! ### C9 -/

/-- C9: the `!start_quiz` entry point rejects a question count outside
`[1,50]` and a mode outside `{"1","2","3","mix"}` before any session state
is created: the engine state (live table, durable markers, attempt log) is
returned untouched and no session is started; the rejection is the
synchronous result. -/
theorem start_quiz_rejects_invalid_input
    (st : EngineState) (userId chapterId : Nat) (difficulty : String)
    (questions : Int) (sid : Nat) (now : ℚ)
    (h : (difficulty ≠ "1" ∧ difficulty ≠ "2" ∧ difficulty ≠ "3" ∧
            difficulty ≠ "mix") ∨ questions < 1 ∨ 50 < questions) :
    (Bot.start_quiz st userId chapterId difficulty questions sid now).1 = st ∧
    ∀ x, (Bot.start_quiz st userId chapterId difficulty questions sid now).2 ≠
      StartResult.started x := by
  by_cases hd : difficulty ≠ "1" ∧ difficulty ≠ "2" ∧ difficulty ≠ "3" ∧
      difficulty ≠ "mix"
  · simp [Bot.start_quiz, hd]
  · have hq : questions < 1 ∨ 50 < questions := by tauto
    simp [Bot.start_quiz, hd, hq]

/-- Witness for C9: mode `"4"` and a count of 51 are both rejected with
the engine state untouched. -/
theorem start_quiz_rejects_invalid_input_witness :
    ((Bot.start_quiz initialState 100 7 "4" 10 0 0).1 = initialState ∧
      ∀ x, (Bot.start_quiz initialState 100 7 "4" 10 0 0).2 ≠
        StartResult.started x) ∧
    ((Bot.start_quiz initialState 100 7 "mix" 51 0 0).1 = initialState ∧
      ∀ x, (Bot.start_quiz initialState 100 7 "mix" 51 0 0).2 ≠
        StartResult.started x) :=
  ⟨start_quiz_rejects_invalid_input initialState 100 7 "4" 10 0 0
      (Or.inl (by decide)),
    start_quiz_rejects_invalid_input initialState 100 7 "mix" 51 0 0
      (Or.inr (by decide))⟩

/-! ### C8 -/

/-- Counterexample to C8: token 0 is a live session (on chapter 9, which
has no questions) and token 42 is unknown, yet `get_next_question` returns
the very same `none` signal for both — the unknown-session failure of
`nextQuestion` is NOT distinct from the "no questions available"
outcome. -/
theorem get_next_question_conflates_unknown_session :
    QuizSystem.get_session_info stEmpty 0 = some (initSession 100 9 "mix" 1 3 0) ∧
    QuizSystem.get_session_info stEmpty 42 = none ∧
    QuizSystem.get_next_question envFix stEmpty 0 = none ∧
    QuizSystem.get_next_question envFix stEmpty 42 = none := by
  refine ⟨rfl, rfl, ?_, rfl⟩
  rfl

/-- C8 as amended: `submit_answer` and `end_quiz` fail on an unknown token
with the dedicated `Invalid session` error — a value distinct from the
unknown-question error, from a propagated storage exception and from every
success dict — and `get_session_info` returns `none`; but
`get_next_question` returns the same `none` for an unknown token as for a
live session with no questions available. -/
theorem unknown_session_signalling
    (env : Env) (st : EngineState) (sid qid : Nat) (ans : String)
    (rt now : ℚ) (recordOk : Bool)
    (h : st.activeSessions sid = none) :
    QuizSystem.submit_answer env st sid qid ans rt recordOk now =
      (st, SubmitResult.error "Invalid session") ∧
    QuizSystem.end_quiz st sid now = (st, EndResult.error "Invalid session") ∧
    QuizSystem.get_session_info st sid = none ∧
    QuizSystem.get_next_question env st sid = none ∧
    SubmitResult.error "Invalid session" ≠ SubmitResult.error "Question not found" ∧
    (∀ r, SubmitResult.error "Invalid session" ≠ SubmitResult.ok r) ∧
    (∀ e, SubmitResult.error "Invalid session" ≠ SubmitResult.raised e) ∧
    (∀ stats, EndResult.error "Invalid session" ≠ EndResult.ended stats) := by
  refine ⟨?_, ?_, ?_, ?_, by decide, fun r => by simp, fun e => by simp,
    fun stats => by simp⟩
  · simp [QuizSystem.submit_answer, h]
  · simp [QuizSystem.end_quiz, h]
  · simp [QuizSystem.get_session_info, h]
  · simp [QuizSystem.get_next_question, h]

/-- Witness for the amended C8 at the concrete state `stFix` and the
unknown token 42. -/
theorem unknown_session_signalling_witness :
    QuizSystem.submit_answer envFix stFix 42 1 "b" 2 true 0 =
      (stFix, SubmitResult.error "Invalid session") ∧
    QuizSystem.end_quiz stFix 42 0 = (stFix, EndResult.error "Invalid session") ∧
    QuizSystem.get_session_info stFix 42 = none ∧
    QuizSystem.get_next_question envFix stFix 42 = none :=
  (fun h => ⟨h.1, h.2.1, h.2.2.1, h.2.2.2.1⟩)
    (unknown_session_signalling envFix stFix 42 1 "b" 2 0 true rfl)

/-! ### C1 -/

/-- Counterexample to C1: with the live session `sFix` (0 questions
answered) and a failing Attempt Recorder, `submit_answer` propagates the
failure, records nothing, and yet the session's `questionsAnswered`
counter has already advanced from 0 to 1 — the state change is applied
BEFORE the attempt record, not after it. -/
theorem submit_answer_mutates_before_recording :
    (stFix.activeSessions 0).map Session.currentQuestion = some 0 ∧
    (QuizSystem.submit_answer envFix stFix 0 1 "b" 2 false 0).2 =
      SubmitResult.raised PyError.recordFailure ∧
    (QuizSystem.submit_answer envFix stFix 0 1 "b" 2 false 0).1.attempts = [] ∧
    ((QuizSystem.submit_answer envFix stFix 0 1 "b" 2 false 0).1.activeSessions 0).map
      Session.currentQuestion = some 1 := by
  refine ⟨rfl, ?_, rfl, ?_⟩ <;> decide

/-- C1 as amended: when the Attempt Recorder fails during `submit_answer`,
no attempt is appended to the durable log, no response is produced, the
difficulty adapter does not run and the session is not destroyed — but the
session counters `questionsAnswered`, `countsByDifficulty`,
`responseTimes`, `score` and the streaks have already been advanced,
because the engine applies its state update before requesting the attempt
record. -/
theorem submit_answer_record_failure_spec
    (env : Env) (st : EngineState) (sid qid : Nat) (ans : String)
    (rt now : ℚ) (s : Session) (q : Question) (pts : Nat)
    (hs : st.activeSessions sid = some s)
    (hq : Database.findQuestion env qid = some q)
    (hp : pointsMap q.difficulty = some pts) :
    (QuizSystem.submit_answer env st sid qid ans rt false now).2 =
      SubmitResult.raised PyError.recordFailure ∧
    (QuizSystem.submit_answer env st sid qid ans rt false now).1.attempts =
      st.attempts ∧
    (QuizSystem.submit_answer env st sid qid ans rt false now).1.activeQuizzes =
      st.activeQuizzes ∧
    (∀ x, x ≠ sid →
      (QuizSystem.submit_answer env st sid qid ans rt false now).1.activeSessions x =
        st.activeSessions x) ∧
    ∃ s2, (QuizSystem.submit_answer env st sid qid ans rt false now).1.activeSessions sid =
        some s2 ∧
      s2.currentQuestion = s.currentQuestion + 1 ∧
      s2.questionsByDifficulty = s.questionsByDifficulty.inc q.difficulty ∧
      s2.responseTimes = s.responseTimes ++ [rt] ∧
      s2.currentDifficulty = s.currentDifficulty ∧
      (gradeAnswer q ans = true →
        s2.score = s.score + pts ∧ s2.correctStreak = s.correctStreak + 1 ∧
        s2.wrongStreak = 0 ∧
        s2.correctByDifficulty = s.correctByDifficulty.inc q.difficulty) ∧
      (gradeAnswer q ans = false →
        s2.score = s.score ∧ s2.correctStreak = 0 ∧
        s2.wrongStreak = s.wrongStreak + 1 ∧
        s2.correctByDifficulty = s.correctByDifficulty) := by
  have heq : QuizSystem.submit_answer env st sid qid ans rt false now = ({ st with activeSessions := setSession st.activeSessions sid (updateStats s q rt (gradeAnswer q ans) (if gradeAnswer q ans then pts else 0)) }, SubmitResult.raised PyError.recordFailure) := by
    simp [QuizSystem.submit_answer, hs, hq, hp]
  rw [heq]
  refine ⟨rfl, rfl, rfl, fun x hx => setSession_other _ _ _ _ hx, ?_⟩
  refine ⟨updateStats s q rt (gradeAnswer q ans) (if gradeAnswer q ans then pts else 0),
    setSession_self _ _ _, by simp, by simp, by simp, by simp, ?_, ?_⟩
  · intro hcorrect
    rw [hcorrect]
    simpa using updateStats_true_fields s q rt pts
  · intro hwrong
    rw [hwrong]
    simpa using updateStats_false_fields s q rt pts

/-- Witness for the amended C1 at the concrete fixture: a correct answer
whose recording fails. -/
theorem submit_answer_record_failure_spec_witness :
    (QuizSystem.submit_answer envFix stFix 0 1 "b" 2 false 0).2 =
      SubmitResult.raised PyError.recordFailure ∧
    ∃ s2, (QuizSystem.submit_answer envFix stFix 0 1 "b" 2 false 0).1.activeSessions 0 =
        some s2 ∧ s2.currentQuestion = sFix.currentQuestion + 1 :=
  (fun h => ⟨h.1, h.2.2.2.2.elim (fun s2 hs2 => ⟨s2, hs2.1, hs2.2.1⟩)⟩)
    (submit_answer_record_failure_spec envFix stFix 0 1 "b" 2 0 sFix qFix 2
      rfl rfl rfl)

/-! ### C4 -/

/-- Shape of a successful `submit_answer`: the call returns the feedback
dict, whose correctness flag is the case-insensitive comparison and whose
points are the difficulty table value on a correct answer and 0
otherwise. -/
lemma submit_answer_ok_shape
    (env : Env) (st : EngineState) (sid qid : Nat) (ans : String)
    (rt now : ℚ) (s : Session) (q : Question) (pts : Nat)
    (hs : st.activeSessions sid = some s)
    (hq : Database.findQuestion env qid = some q)
    (hp : pointsMap q.difficulty = some pts) :
    ∃ st2 r, QuizSystem.submit_answer env st sid qid ans rt true now =
        (st2, SubmitResult.ok r) ∧
      r.isCorrect = gradeAnswer q ans ∧
      r.pointsEarned = (if gradeAnswer q ans then pts else 0) := by
  simp only [QuizSystem.submit_answer, hs, hq, hp, eq_self_iff_true, if_true]
  split <;> split <;> split <;> (refine ⟨_, _, rfl, ?_, ?_⟩ <;> rfl)

/-- C4: correctness of a submitted answer is decided by case-insensitive
equality with the question's correct option; a correct answer earns the
fixed per-difficulty point value (difficulty d ∈ {1,2,3} earns exactly d
points, via `POINTS_EASY`/`POINTS_MEDIUM`/`POINTS_HARD`), an incorrect
answer earns 0, and the points do not depend on the response time. -/
theorem submit_answer_scoring
    (env : Env) (st : EngineState) (sid qid : Nat) (ans : String)
    (rt now : ℚ) (s : Session) (q : Question)
    (hs : st.activeSessions sid = some s)
    (hq : Database.findQuestion env qid = some q)
    (hd : q.difficulty = 1 ∨ q.difficulty = 2 ∨ q.difficulty = 3) :
    ∃ st2 r, QuizSystem.submit_answer env st sid qid ans rt true now =
        (st2, SubmitResult.ok r) ∧
      r.isCorrect = (strLower ans == strLower q.correctOption) ∧
      (r.isCorrect = true → r.pointsEarned = q.difficulty) ∧
      (r.isCorrect = false → r.pointsEarned = 0) ∧
      ∀ rt2 now2, ∃ st3 r2,
        QuizSystem.submit_answer env st sid qid ans rt2 true now2 =
          (st3, SubmitResult.ok r2) ∧ r2.pointsEarned = r.pointsEarned := by
  have hp : pointsMap q.difficulty = some q.difficulty := by
    rcases hd with h | h | h <;>
      simp [pointsMap, h, POINTS_EASY, POINTS_MEDIUM, POINTS_HARD]
  obtain ⟨st2, r, heq, hic, hpe⟩ :=
    submit_answer_ok_shape env st sid qid ans rt now s q q.difficulty hs hq hp
  refine ⟨st2, r, heq, hic, ?_, ?_, ?_⟩
  · intro hc
    rw [hpe, hic.symm.trans hc, if_pos rfl]
  · intro hc
    rw [hpe, hic.symm.trans hc]
    simp
  · intro rt2 now2
    obtain ⟨st3, r2, heq2, hic2, hpe2⟩ :=
      submit_answer_ok_shape env st sid qid ans rt2 now2 s q q.difficulty hs hq hp
    exact ⟨st3, r2, heq2, by rw [hpe2, hpe]⟩

/-- Witness for C4: for the difficulty-2 fixture question, the mixed-case
answer `"b"` is graded correct and earns exactly 2 points; the answer
`"c"` earns 0. -/
theorem submit_answer_scoring_witness :
    (∃ st2 r, QuizSystem.submit_answer envFix stFix 0 1 "b" 2 true 0 =
        (st2, SubmitResult.ok r) ∧ r.isCorrect = true ∧ r.pointsEarned = 2) ∧
    (∃ st2 r, QuizSystem.submit_answer envFix stFix 0 1 "c" 9 true 0 =
        (st2, SubmitResult.ok r) ∧ r.isCorrect = false ∧ r.pointsEarned = 0) := by
  constructor
  · obtain ⟨st2, r, heq, hic, hyes, hno, hrt⟩ :=
      submit_answer_scoring envFix stFix 0 1 "b" 2 0 sFix qFix rfl rfl
        (Or.inr (Or.inl rfl))
    have hc : r.isCorrect = true := by rw [hic]; decide
    exact ⟨st2, r, heq, hc, hyes hc⟩
  · obtain ⟨st2, r, heq, hic, hyes, hno, hrt⟩ :=
      submit_answer_scoring envFix stFix 0 1 "c" 9 0 sFix qFix rfl rfl
        (Or.inr (Or.inl rfl))
    have hc : r.isCorrect = false := by rw [hic]; decide
    exact ⟨st2, r, heq, hc, hno hc⟩

/-! ### C5 -/

/-- C5: the time bonus of the final statistics is 0 when the average
response time is at least 10 seconds and `min(50, floor((10 - avg) * 5))`
otherwise; it is never negative and never exceeds 50; the final score is
the session score plus the time bonus; and the spec's anchor points hold:
average 0 gives bonus 50, averages 10 and 12 give bonus 0. -/
theorem final_stats_time_bonus (s : Session) (now : ℚ) :
    (10 ≤ (QuizSystem.calculate_final_stats s now).avgResponseTime →
      (QuizSystem.calculate_final_stats s now).timeBonus = 0) ∧
    ((QuizSystem.calculate_final_stats s now).avgResponseTime < 10 →
      (QuizSystem.calculate_final_stats s now).timeBonus =
        min 50 (Int.floor
          ((10 - (QuizSystem.calculate_final_stats s now).avgResponseTime) * 5))) ∧
    0 ≤ (QuizSystem.calculate_final_stats s now).timeBonus ∧
    (QuizSystem.calculate_final_stats s now).timeBonus ≤ 50 ∧
    (QuizSystem.calculate_final_stats s now).finalScore =
      (s.score : Int) + (QuizSystem.calculate_final_stats s now).timeBonus ∧
    ((QuizSystem.calculate_final_stats s now).avgResponseTime = 0 →
      (QuizSystem.calculate_final_stats s now).timeBonus = 50) ∧
    ((QuizSystem.calculate_final_stats s now).avgResponseTime = 10 →
      (QuizSystem.calculate_final_stats s now).timeBonus = 0) ∧
    ((QuizSystem.calculate_final_stats s now).avgResponseTime = 12 →
      (QuizSystem.calculate_final_stats s now).timeBonus = 0) := by
  have htb : (QuizSystem.calculate_final_stats s now).timeBonus =
      if (QuizSystem.calculate_final_stats s now).avgResponseTime < 10 then
        min 50 (Int.floor
          ((10 - (QuizSystem.calculate_final_stats s now).avgResponseTime) * 5))
      else 0 := rfl
  have hfs : (QuizSystem.calculate_final_stats s now).finalScore =
      (s.score : Int) + (QuizSystem.calculate_final_stats s now).timeBonus := rfl
  refine ⟨?_, ?_, ?_, ?_, hfs, ?_, ?_, ?_⟩
  · intro h
    rw [htb, if_neg (not_lt.mpr h)]
  · intro h
    rw [htb, if_pos h]
  · rw [htb]
    split_ifs with h
    · refine le_min (by norm_num) (Int.floor_nonneg.mpr ?_)
      nlinarith
    · exact le_refl 0
  · rw [htb]
    split_ifs with h
    · exact min_le_left _ _
    · norm_num
  · intro h
    rw [htb, h]
    have h50 : ((10 : ℚ) - 0) * 5 = ((50 : ℤ) : ℚ) := by norm_num
    rw [if_pos (by norm_num : (0 : ℚ) < 10), h50, Int.floor_intCast]
    exact min_self 50
  · intro h
    rw [htb, h, if_neg (by norm_num : ¬ (10 : ℚ) < 10)]
  · intro h
    rw [htb, h, if_neg (by norm_num : ¬ (12 : ℚ) < 10)]

/-- The average-response-time field of the final statistics, unfolded. -/
lemma calculate_final_stats_avg (s : Session) (now : ℚ) :
    (QuizSystem.calculate_final_stats s now).avgResponseTime =
      if s.responseTimes ≠ [] then s.responseTimes.sum / s.responseTimes.length
      else 0 := rfl

/-- Witness for C5 at concrete sessions: an empty response-time list gives
average 0 and bonus 50; averages 10 and 12 give bonus 0. -/
theorem final_stats_time_bonus_witness :
    (QuizSystem.calculate_final_stats sFix 0).timeBonus = 50 ∧
    (QuizSystem.calculate_final_stats { sFix with responseTimes := [10] } 0).timeBonus = 0 ∧
    (QuizSystem.calculate_final_stats { sFix with responseTimes := [12] } 0).timeBonus = 0 :=
  ⟨(final_stats_time_bonus sFix 0).2.2.2.2.2.1
      (by rw [calculate_final_stats_avg]; norm_num [sFix, initSession]),
    (final_stats_time_bonus { sFix with responseTimes := [10] } 0).2.2.2.2.2.2.1
      (by rw [calculate_final_stats_avg]; norm_num),
    (final_stats_time_bonus { sFix with responseTimes := [12] } 0).2.2.2.2.2.2.2
      (by rw [calculate_final_stats_avg]; norm_num)⟩

/-! ### C7 -/

lemma insertByTime_length (key : Question → ℚ) (q : Question)
    (l : List Question) : (insertByTime key q l).length = l.length + 1 := by
  induction l with
  | nil => rfl
  | cons x xs ih =>
      simp only [insertByTime]
      split_ifs <;> simp [ih]

lemma sortByTime_length (key : Question → ℚ) (l : List Question) :
    (sortByTime key l).length = l.length := by
  induction l with
  | nil => rfl
  | cons x xs ih => simp [sortByTime, insertByTime_length, ih]

lemma orderCandidates_length (env : Env) (userId : Nat) (qs : List Question) :
    (orderCandidates env userId qs).length = qs.length := by
  simp only [orderCandidates, List.length_append, sortByTime_length]
  induction qs with
  | nil => rfl
  | cons q qs ih =>
      cases hl : lastAttempted env userId q.questionId with
      | none => simp [List.filter_cons, hl] at ih ⊢; omega
      | some t => simp [List.filter_cons, hl] at ih ⊢; omega

lemma orderCandidates_eq_nil (env : Env) (userId : Nat) (qs : List Question) :
    orderCandidates env userId qs = [] ↔ qs = [] := by
  constructor
  · intro h
    have hlen := orderCandidates_length env userId qs
    rw [h] at hlen
    exact List.length_eq_zero.mp hlen.symm
  · intro h
    subst h
    rfl

/-- The store query returns no row exactly when no candidate matches the
filter. -/
lemma db_get_next_question_eq_none (env : Env) (userId chapterId : Nat)
    (difficulty : Option Nat) :
    Database.get_next_question env userId chapterId difficulty = none ↔
      candidates env chapterId difficulty = [] := by
  rw [Database.get_next_question, List.head?_eq_none_iff]
  exact orderCandidates_eq_nil env userId _

/-- A difficulty filter only shrinks the candidate set: if the whole
chapter has no candidates, neither does any filtered query. -/
lemma candidates_filter_subset (env : Env) (chapterId : Nat)
    (difficulty : Option Nat) (h : candidates env chapterId none = []) :
    candidates env chapterId difficulty = [] := by
  rw [candidates, List.filter_eq_nil_iff] at h ⊢
  intro q hq
  have h1 := h q hq
  simp only [matchesDifficulty, Bool.and_true] at h1
  simp [h1, matchesDifficulty]

/-- C7: for a live, unfinished session, the engine queries the store at
the session's current difficulty and returns the (enriched) hit; when that
query is empty it retries exactly once with no difficulty filter; the
overall result is the "no questions" signal exactly when both the filtered
and unfiltered candidate sets are empty — in particular a chapter with no
candidates at all never yields a question. -/
theorem question_selection_fallback
    (env : Env) (st : EngineState) (sid : Nat) (s : Session)
    (hs : st.activeSessions sid = some s)
    (hlt : (s.currentQuestion : Int) < s.totalQuestions) :
    (∀ q, Database.get_next_question env s.userId s.chapterId
        (some s.currentDifficulty) = some q →
      QuizSystem.get_next_question env st sid = some
        { question := q, sessionId := sid, questionNumber := s.currentQuestion + 1,
          totalQuestions := s.totalQuestions, currentDifficulty := s.currentDifficulty }) ∧
    (Database.get_next_question env s.userId s.chapterId
        (some s.currentDifficulty) = none →
      QuizSystem.get_next_question env st sid =
        (Database.get_next_question env s.userId s.chapterId none).map
          (fun q =>
            { question := q, sessionId := sid, questionNumber := s.currentQuestion + 1,
              totalQuestions := s.totalQuestions,
              currentDifficulty := s.currentDifficulty })) ∧
    (candidates env s.chapterId none = [] →
      QuizSystem.get_next_question env st sid = none) ∧
    (QuizSystem.get_next_question env st sid = none ↔
      (candidates env s.chapterId (some s.currentDifficulty) = [] ∧
        candidates env s.chapterId none = [])) := by
  have hnot : ¬ ((s.currentQuestion : Int) ≥ s.totalQuestions) := not_le.mpr hlt
  refine ⟨?_, ?_, ?_, ?_, ?_⟩
  · intro q hq
    simp [QuizSystem.get_next_question, hs, hnot, hq]
  · intro hq
    cases hdb2 : Database.get_next_question env s.userId s.chapterId none with
    | none => simp [QuizSystem.get_next_question, hs, hnot, hq, hdb2]
    | some q => simp [QuizSystem.get_next_question, hs, hnot, hq, hdb2]
  · intro hc
    have h1 := (db_get_next_question_eq_none env s.userId s.chapterId
      (some s.currentDifficulty)).mpr (candidates_filter_subset env s.chapterId _ hc)
    have h2 := (db_get_next_question_eq_none env s.userId s.chapterId none).mpr hc
    simp [QuizSystem.get_next_question, hs, hnot, h1, h2]
  · intro h
    cases hdb1 : Database.get_next_question env s.userId s.chapterId
        (some s.currentDifficulty) with
    | some q => simp [QuizSystem.get_next_question, hs, hnot, hdb1] at h
    | none =>
        cases hdb2 : Database.get_next_question env s.userId s.chapterId none with
        | some q => simp [QuizSystem.get_next_question, hs, hnot, hdb1, hdb2] at h
        | none =>
            exact ⟨(db_get_next_question_eq_none env s.userId s.chapterId _).mp hdb1,
              (db_get_next_question_eq_none env s.userId s.chapterId none).mp hdb2⟩
  · rintro ⟨h1, h2⟩
    have hd1 := (db_get_next_question_eq_none env s.userId s.chapterId
      (some s.currentDifficulty)).mpr h1
    have hd2 := (db_get_next_question_eq_none env s.userId s.chapterId none).mpr h2
    simp [QuizSystem.get_next_question, hs, hnot, hd1, hd2]

/-- Witness for C7: the fixture chapter has no difficulty-1 question, so
the filtered query is empty and the engine falls back to the unfiltered
query, returning the difficulty-2 question. -/
theorem question_selection_fallback_witness :
    QuizSystem.get_next_question envFix stFix 0 = some
      { question := qFix, sessionId := 0, questionNumber := 1,
        totalQuestions := 3, currentDifficulty := 1 } := by
  have h := (question_selection_fallback envFix stFix 0 sFix rfl
    (by decide)).2.1 (by rfl)
  rw [h]
  rfl

/-! ### C2 -/

lemma adjust_difficulty_correctStreak (s : Session) :
    (QuizSystem.adjust_difficulty s).correctStreak = s.correctStreak := by
  simp only [QuizSystem.adjust_difficulty]
  split_ifs <;> rfl

lemma adjust_difficulty_wrongStreak (s : Session) :
    (QuizSystem.adjust_difficulty s).wrongStreak = s.wrongStreak := by
  simp only [QuizSystem.adjust_difficulty]
  split_ifs <;> rfl

lemma adjust_difficulty_currentQuestion (s : Session) :
    (QuizSystem.adjust_difficulty s).currentQuestion = s.currentQuestion := by
  simp only [QuizSystem.adjust_difficulty]
  split_ifs <;> rfl

lemma adjust_difficulty_totalQuestions (s : Session) :
    (QuizSystem.adjust_difficulty s).totalQuestions = s.totalQuestions := by
  simp only [QuizSystem.adjust_difficulty]
  split_ifs <;> rfl

/-- C2: the adaptive difficulty adapter changes the level exactly as
specified.  With fewer than 3 questions answered at the current level it
is the identity; with at least 3 (which, since the per-level tally never
exceeds the global progress counter, also passes the global
`min(5, questionsAnswered) ≥ 3` gate): accuracy ≥ 0.8 at a level below 3
promotes by exactly one, otherwise accuracy ≤ 0.4 at a level above 1
demotes by exactly one, otherwise the level is unchanged — and nothing but
`currentDifficulty` is touched.  In fixed-difficulty mode `submit_answer`
never changes the stored session's `currentDifficulty`. -/
theorem difficulty_adaptation_spec :
    (∀ s : Session,
      s.questionsByDifficulty.get s.currentDifficulty < 3 →
      QuizSystem.adjust_difficulty s = s) ∧
    (∀ s : Session,
      s.questionsByDifficulty.get s.currentDifficulty ≤ s.currentQuestion →
      3 ≤ s.questionsByDifficulty.get s.currentDifficulty →
      DIFFICULTY_THRESHOLD_UP ≤ levelAccuracy s →
      s.currentDifficulty < 3 →
      QuizSystem.adjust_difficulty s =
        { s with currentDifficulty := s.currentDifficulty + 1 }) ∧
    (∀ s : Session,
      s.questionsByDifficulty.get s.currentDifficulty ≤ s.currentQuestion →
      3 ≤ s.questionsByDifficulty.get s.currentDifficulty →
      ¬ (DIFFICULTY_THRESHOLD_UP ≤ levelAccuracy s ∧ s.currentDifficulty < 3) →
      levelAccuracy s ≤ DIFFICULTY_THRESHOLD_DOWN →
      1 < s.currentDifficulty →
      QuizSystem.adjust_difficulty s =
        { s with currentDifficulty := s.currentDifficulty - 1 }) ∧
    (∀ s : Session,
      s.questionsByDifficulty.get s.currentDifficulty ≤ s.currentQuestion →
      3 ≤ s.questionsByDifficulty.get s.currentDifficulty →
      ¬ (DIFFICULTY_THRESHOLD_UP ≤ levelAccuracy s ∧ s.currentDifficulty < 3) →
      ¬ (levelAccuracy s ≤ DIFFICULTY_THRESHOLD_DOWN ∧ 1 < s.currentDifficulty) →
      QuizSystem.adjust_difficulty s = s) ∧
    (∀ (env : Env) (st : EngineState) (sid qid : Nat) (ans : String)
        (rt now : ℚ) (recordOk : Bool) (s : Session) (st2 : EngineState)
        (res : SubmitResult),
      st.activeSessions sid = some s →
      s.difficultyMode ≠ "mix" →
      QuizSystem.submit_answer env st sid qid ans rt recordOk now = (st2, res) →
      ∀ s2, st2.activeSessions sid = some s2 →
        s2.currentDifficulty = s.currentDifficulty) := by
  refine ⟨?_, ?_, ?_, ?_, ?_⟩
  · intro s h
    simp only [QuizSystem.adjust_difficulty]
    split_ifs <;> first | rfl | omega
  · intro s hle h3 hup hd3
    simp only [QuizSystem.adjust_difficulty]
    have hw : ¬ (min 5 s.currentQuestion < 3) := by omega
    rw [if_neg hw, if_pos h3, if_pos ⟨hup, hd3⟩]
    have hm : min 3 (s.currentDifficulty + 1) = s.currentDifficulty + 1 := by omega
    rw [hm]
  · intro s hle h3 hnotup hdown hd1
    simp only [QuizSystem.adjust_difficulty]
    have hw : ¬ (min 5 s.currentQuestion < 3) := by omega
    rw [if_neg hw, if_pos h3, if_neg hnotup, if_pos ⟨hdown, hd1⟩]
    have hm : max 1 (s.currentDifficulty - 1) = s.currentDifficulty - 1 := by omega
    rw [hm]
  · intro s hle h3 hnotup hnotdown
    simp only [QuizSystem.adjust_difficulty]
    have hw : ¬ (min 5 s.currentQuestion < 3) := by omega
    rw [if_neg hw, if_pos h3, if_neg hnotup, if_neg hnotdown]
  · intro env st sid qid ans rt now recordOk s st2 res hs hmode heq s2 hs2
    cases hq : Database.findQuestion env qid with
    | none =>
        simp only [QuizSystem.submit_answer, hs, hq] at heq
        obtain ⟨rfl, rfl⟩ := Prod.mk.injEq .. ▸ heq
        rw [hs] at hs2
        cases hs2
        rfl
    | some q =>
        cases hp : pointsMap q.difficulty with
        | none =>
            simp only [QuizSystem.submit_answer, hs, hq, hp] at heq
            obtain ⟨rfl, rfl⟩ := Prod.mk.injEq .. ▸ heq
            rw [hs] at hs2
            cases hs2
            rfl
        | some pts =>
            cases recordOk with
            | false =>
                simp only [QuizSystem.submit_answer, hs, hq, hp,
                  Bool.false_eq_true, if_false] at heq
                obtain ⟨rfl, rfl⟩ := Prod.mk.injEq .. ▸ heq
                simp only [setSession, if_pos rfl] at hs2
                obtain rfl := Option.some.injEq .. ▸ hs2
                simp
            | true =>
                by_cases hc :
                    ((updateStats s q rt (gradeAnswer q ans)
                        (if gradeAnswer q ans then pts else 0)).currentQuestion : Int) ≥
                      (updateStats s q rt (gradeAnswer q ans)
                        (if gradeAnswer q ans then pts else 0)).totalQuestions
                · simp only [QuizSystem.submit_answer, hs, hq, hp, eq_self_iff_true,
                    if_true, if_neg hmode, if_pos hc] at heq
                  obtain ⟨rfl, rfl⟩ := Prod.mk.injEq .. ▸ heq
                  simp [QuizSystem.cleanup_session, removeSession] at hs2
                · simp only [QuizSystem.submit_answer, hs, hq, hp, eq_self_iff_true,
                    if_true, if_neg hmode, if_neg hc] at heq
                  obtain ⟨rfl, rfl⟩ := Prod.mk.injEq .. ▸ heq
                  simp only [setSession, if_pos rfl] at hs2
                  obtain rfl := Option.some.injEq .. ▸ hs2
                  simp

/-- Adaptive session that has answered 3 questions at level 1, all
correct. -/
def sUpFix : Session :=
  { sFix with
    currentQuestion := 3
    questionsByDifficulty := ⟨3, 0, 0⟩
    correctByDifficulty := ⟨3, 0, 0⟩ }

/-- Adaptive session at level 2 that has answered 3 questions there, none
correct. -/
def sDownFix : Session :=
  { sFix with
    currentDifficulty := 2
    currentQuestion := 3
    questionsByDifficulty := ⟨0, 3, 0⟩
    correctByDifficulty := ⟨0, 0, 0⟩ }

/-- Witness for C2: a fresh session is left alone; 3/3 correct at level 1
promotes to level 2; 0/3 correct at level 2 demotes to level 1. -/
theorem difficulty_adaptation_spec_witness :
    QuizSystem.adjust_difficulty sFix = sFix ∧
    QuizSystem.adjust_difficulty sUpFix = { sUpFix with currentDifficulty := 2 } ∧
    QuizSystem.adjust_difficulty sDownFix = { sDownFix with currentDifficulty := 1 } := by
  refine ⟨difficulty_adaptation_spec.1 sFix (by decide), ?_, ?_⟩
  · exact difficulty_adaptation_spec.2.1 sUpFix (by decide) (by decide)
      (by norm_num [DIFFICULTY_THRESHOLD_UP, levelAccuracy, sUpFix, sFix,
        initSession, DiffCounts.get])
      (by decide)
  · exact difficulty_adaptation_spec.2.2.1 sDownFix (by decide) (by decide)
      (by norm_num [DIFFICULTY_THRESHOLD_UP, levelAccuracy, sDownFix, sFix,
        initSession, DiffCounts.get])
      (by norm_num [DIFFICULTY_THRESHOLD_DOWN, levelAccuracy, sDownFix, sFix,
        initSession, DiffCounts.get])
      (by decide)

/-! ### C3 -/

/-- C3: a session starts with 0 questions answered, and each successful
`submit_answer` advances the counter by exactly one; while the counter is
still below the target the call leaves the session live, keeps its durable
marker, and attaches no final statistics; the call that reaches the target
(the Nth successful call for target N ∈ [1,50]) returns `quiz_complete`
with final statistics attached and destroys the session, removing it from
the live table and deleting its durable `active_quizzes` marker. -/
theorem session_terminates_at_target :
    (∀ (st : EngineState) (sid userId chapterId : Nat) (difficulty : String)
        (tq : Int) (now : ℚ) (cd : Nat),
      (if difficulty = "mix" then some 1 else difficulty.toNat?) = some cd →
      ∃ s0, (QuizSystem.start_quiz st sid userId chapterId difficulty tq
          now).1.activeSessions sid = some s0 ∧
        s0.currentQuestion = 0 ∧ s0.totalQuestions = tq) ∧
    (∀ (env : Env) (st st2 : EngineState) (sid qid : Nat) (ans : String)
        (rt now : ℚ) (s : Session) (r : SubmitResponse),
      st.activeSessions sid = some s →
      1 ≤ s.totalQuestions → s.totalQuestions ≤ 50 →
      QuizSystem.submit_answer env st sid qid ans rt true now =
        (st2, SubmitResult.ok r) →
      (((s.currentQuestion : Int) + 1 < s.totalQuestions →
        r.quizComplete = false ∧ r.finalStats = none ∧
        (∃ s2, st2.activeSessions sid = some s2 ∧
          s2.currentQuestion = s.currentQuestion + 1) ∧
        st2.activeQuizzes = st.activeQuizzes) ∧
      ((s.currentQuestion : Int) + 1 ≥ s.totalQuestions →
        r.quizComplete = true ∧ r.finalStats.isSome = true ∧
        st2.activeSessions sid = none ∧ sid ∉ st2.activeQuizzes))) := by
  constructor
  · intro st sid userId chapterId difficulty tq now cd hcd
    refine ⟨initSession userId chapterId difficulty cd tq now, ?_, rfl, rfl⟩
    simp [QuizSystem.start_quiz, hcd, setSession]
  · intro env st st2 sid qid ans rt now s r hs h1 h50 heq
    cases hq : Database.findQuestion env qid with
    | none => simp [QuizSystem.submit_answer, hs, hq] at heq
    | some q =>
      cases hp : pointsMap q.difficulty with
      | none => simp [QuizSystem.submit_answer, hs, hq, hp] at heq
      | some pts =>
        simp only [QuizSystem.submit_answer, hs, hq, hp, eq_self_iff_true,
          if_true] at heq
        set u := updateStats s q rt (gradeAnswer q ans)
          (if gradeAnswer q ans then pts else 0) with hu
        set s3 := (if s.difficultyMode = "mix" then
          QuizSystem.adjust_difficulty u else u) with hs3
        have hcq : s3.currentQuestion = s.currentQuestion + 1 := by
          rw [hs3]
          split <;> simp [adjust_difficulty_currentQuestion, hu]
        have htq : s3.totalQuestions = s.totalQuestions := by
          rw [hs3]
          split <;> simp [adjust_difficulty_totalQuestions, hu]
        by_cases hc : (s3.currentQuestion : Int) ≥ s3.totalQuestions
        · rw [if_pos hc] at heq
          obtain ⟨rfl, hr⟩ := Prod.mk.injEq .. ▸ heq
          injection hr with hr2
          subst hr2
          rw [hcq, htq] at hc
          constructor
          · intro hlt
            exfalso
            push_cast at hc
            omega
          · intro hge
            refine ⟨rfl, rfl, ?_, ?_⟩
            · simp [QuizSystem.cleanup_session, removeSession]
            · simp [QuizSystem.cleanup_session]
        · rw [if_neg hc] at heq
          obtain ⟨rfl, hr⟩ := Prod.mk.injEq .. ▸ heq
          injection hr with hr2
          subst hr2
          rw [hcq, htq] at hc
          constructor
          · intro hlt
            refine ⟨rfl, rfl, ⟨s3, ?_, hcq⟩, rfl⟩
            simp [setSession]
          · intro hge
            exfalso
            push_cast at hc
            omega

/-- The fixture session two answers short of nothing: 2 of 3 questions
answered. -/
def sLastFix : Session := { sFix with currentQuestion := 2 }

/-- Engine state holding `sLastFix` under token 0 with its durable
marker. -/
def stLastFix : EngineState :=
  { activeSessions := setSession (fun _ => none) 0 sLastFix
    activeQuizzes := [0]
    attempts := [] }

/-- The feedback dict produced by the completing call of the C3 witness. -/
def rLastFix : SubmitResponse :=
  { isCorrect := true
    correctAnswer := "B"
    explanation := "exp"
    pointsEarned := 2
    currentScore := 2
    questionNumber := 3
    totalQuestions := 3
    streak := 1
    quizComplete := true
    finalStats := some (QuizSystem.calculate_final_stats
      (updateStats sLastFix qFix 2 true 2) 0) }

/-- Witness for C3: a freshly started target-3 session has counter 0, and
the third successful answer completes the quiz, destroying the live entry
and the durable marker. -/
theorem session_terminates_at_target_witness :
    (∃ s0, (QuizSystem.start_quiz initialState 0 100 7 "mix" 3
        0).1.activeSessions 0 = some s0 ∧
      s0.currentQuestion = 0 ∧ s0.totalQuestions = 3) ∧
    rLastFix.quizComplete = true ∧
    (QuizSystem.submit_answer envFix stLastFix 0 1 "b" 2 true
      0).1.activeSessions 0 = none ∧
    0 ∉ (QuizSystem.submit_answer envFix stLastFix 0 1 "b" 2 true
      0).1.activeQuizzes := by
  have heq : QuizSystem.submit_answer envFix stLastFix 0 1 "b" 2 true 0 =
      ((QuizSystem.submit_answer envFix stLastFix 0 1 "b" 2 true 0).1,
        SubmitResult.ok rLastFix) := rfl
  have h := (session_terminates_at_target.2 envFix stLastFix
    (QuizSystem.submit_answer envFix stLastFix 0 1 "b" 2 true 0).1 0 1 "b" 2 0
    sLastFix rLastFix rfl (by decide) (by decide) heq).2 (by decide)
  exact ⟨session_terminates_at_target.1 initialState 0 100 7 "mix" 3 0 1 rfl,
    h.1, h.2.2.1, h.2.2.2⟩

/-! ### C6 -/

/-- At most one streak counter is nonzero. -/
def StreakOk (s : Session) : Prop :=
  s.correctStreak = 0 ∨ s.wrongStreak = 0

lemma streakOk_updateStats (s : Session) (q : Question) (rt : ℚ) (c : Bool)
    (pe : Nat) : StreakOk (updateStats s q rt c pe) := by
  cases c
  · left
    exact (updateStats_false_fields s q rt pe).2.1
  · right
    exact (updateStats_true_fields s q rt pe).2.2.1

lemma streakOk_adjust (s : Session) (h : StreakOk s) :
    StreakOk (QuizSystem.adjust_difficulty s) := by
  rcases h with h | h
  · left
    rw [adjust_difficulty_correctStreak, h]
  · right
    rw [adjust_difficulty_wrongStreak, h]

/-- Every engine event preserves the streak invariant for every live
session. -/
lemma applyEvent_streak_inv (env : Env) (st : EngineState) (ev : Event)
    (h : ∀ sid s, st.activeSessions sid = some s → StreakOk s) :
    ∀ sid s, (applyEvent env st ev).activeSessions sid = some s → StreakOk s := by
  cases ev with
  | next _ => exact h
  | info _ => exact h
  | start sid0 uid ch d tq now =>
      intro sid s hs
      cases hcd : (if d = "mix" then some 1 else d.toNat?) with
      | none =>
          simp only [applyEvent, QuizSystem.start_quiz, hcd] at hs
          exact h sid s hs
      | some cd =>
          simp only [applyEvent, QuizSystem.start_quiz, hcd, setSession] at hs
          by_cases hx : sid = sid0
          · rw [if_pos hx] at hs
            obtain rfl := Option.some.injEq .. ▸ hs
            left
            rfl
          · rw [if_neg hx] at hs
            exact h sid s hs
  | endQ sid0 now =>
      intro sid s hs
      cases hl : st.activeSessions sid0 with
      | none =>
          simp only [applyEvent, QuizSystem.end_quiz, hl] at hs
          exact h sid s hs
      | some s0 =>
          simp only [applyEvent, QuizSystem.end_quiz, hl,
            QuizSystem.cleanup_session, removeSession] at hs
          by_cases hx : sid = sid0
          · rw [if_pos hx] at hs
            cases hs
          · rw [if_neg hx] at hs
            exact h sid s hs
  | submit sid0 qid ans rt ok now =>
      intro sid s hs
      cases hl : st.activeSessions sid0 with
      | none =>
          simp only [applyEvent, QuizSystem.submit_answer, hl] at hs
          exact h sid s hs
      | some s0 =>
          cases hqv : Database.findQuestion env qid with
          | none =>
              simp only [applyEvent, QuizSystem.submit_answer, hl, hqv] at hs
              exact h sid s hs
          | some q =>
              cases hp : pointsMap q.difficulty with
              | none =>
                  simp only [applyEvent, QuizSystem.submit_answer, hl, hqv, hp] at hs
                  exact h sid s hs
              | some pts =>
                  cases ok with
                  | false =>
                      simp only [applyEvent, QuizSystem.submit_answer, hl, hqv, hp,
                        Bool.false_eq_true, if_false, setSession] at hs
                      by_cases hx : sid = sid0
                      · rw [if_pos hx] at hs
                        obtain rfl := Option.some.injEq .. ▸ hs
                        exact streakOk_updateStats ..
                      · rw [if_neg hx] at hs
                        exact h sid s hs
                  | true =>
                      by_cases hc :
                          ((if s0.difficultyMode = "mix" then
                              QuizSystem.adjust_difficulty (updateStats s0 q rt
                                (gradeAnswer q ans)
                                (if gradeAnswer q ans then pts else 0))
                            else updateStats s0 q rt (gradeAnswer q ans)
                              (if gradeAnswer q ans then pts else 0)).currentQuestion : Int) ≥
                            (if s0.difficultyMode = "mix" then
                              QuizSystem.adjust_difficulty (updateStats s0 q rt
                                (gradeAnswer q ans)
                                (if gradeAnswer q ans then pts else 0))
                            else updateStats s0 q rt (gradeAnswer q ans)
                              (if gradeAnswer q ans then pts else 0)).totalQuestions
                      · simp only [applyEvent, QuizSystem.submit_answer, hl, hqv, hp,
                          eq_self_iff_true, if_true, if_pos hc,
                          QuizSystem.cleanup_session, removeSession, setSession] at hs
                        by_cases hx : sid = sid0
                        · rw [if_pos hx] at hs
                          cases hs
                        · rw [if_neg hx, if_neg hx, if_neg hx] at hs
                          exact h sid s hs
                      · simp only [applyEvent, QuizSystem.submit_answer, hl, hqv, hp,
                          eq_self_iff_true, if_true, if_neg hc, setSession] at hs
                        by_cases hx : sid = sid0
                        · rw [if_pos hx] at hs
                          obtain rfl := Option.some.injEq .. ▸ hs
                          split
                          · exact streakOk_adjust _ (streakOk_updateStats ..)
                          · exact streakOk_updateStats ..
                        · rw [if_neg hx, if_neg hx] at hs
                          exact h sid s hs

/-- C6: after every answered question exactly one streak counter is
incremented and the other reset to zero (on a correct answer the correct
streak grows and the wrong streak drops to 0; on an incorrect answer the
converse), and consequently, after any sequence of engine events from a
fresh start, every live session has at most one nonzero streak counter. -/
theorem streak_mutual_exclusion :
    (∀ (s : Session) (q : Question) (rt : ℚ) (pts : Nat),
      (updateStats s q rt true pts).correctStreak = s.correctStreak + 1 ∧
      (updateStats s q rt true pts).wrongStreak = 0 ∧
      (updateStats s q rt false pts).correctStreak = 0 ∧
      (updateStats s q rt false pts).wrongStreak = s.wrongStreak + 1) ∧
    (∀ (env : Env) (evs : List Event) (sid : Nat) (s : Session),
      (runTrace env evs).activeSessions sid = some s →
      s.correctStreak = 0 ∨ s.wrongStreak = 0) := by
  constructor
  · intro s q rt pts
    exact ⟨(updateStats_true_fields s q rt pts).2.1,
      (updateStats_true_fields s q rt pts).2.2.1,
      (updateStats_false_fields s q rt pts).2.1,
      (updateStats_false_fields s q rt pts).2.2.1⟩
  · intro env evs
    suffices hgen : ∀ st : EngineState,
        (∀ sid s, st.activeSessions sid = some s → StreakOk s) →
        ∀ sid s, (evs.foldl (applyEvent env) st).activeSessions sid = some s →
          StreakOk s by
      intro sid s hs
      exact hgen initialState (fun sid1 s1 hs1 => by
        simp only [initialState] at hs1
        cases hs1) sid s hs
    induction evs with
    | nil => intro st h; exact h
    | cons e es ih =>
        intro st h
        exact ih (applyEvent env st e) (applyEvent_streak_inv env st e h)

/-- Witness for C6: on the fixture trace (start a mix session, answer the
difficulty-2 question correctly) the live session satisfies the streak
invariant, and a correct answer resets the wrong streak. -/
theorem streak_mutual_exclusion_witness :
    ((updateStats sFix qFix 2 true 2).correctStreak = sFix.correctStreak + 1 ∧
      (updateStats sFix qFix 2 true 2).wrongStreak = 0) ∧
    ((QuizSystem.adjust_difficulty (updateStats sFix qFix 2 true 2)).correctStreak = 0 ∨
      (QuizSystem.adjust_difficulty (updateStats sFix qFix 2 true 2)).wrongStreak = 0) :=
  ⟨⟨(streak_mutual_exclusion.1 sFix qFix 2 2).1,
      (streak_mutual_exclusion.1 sFix qFix 2 2).2.1⟩,
    streak_mutual_exclusion.2 envFix
      [Event.start 0 100 7 "mix" 3 0, Event.submit 0 1 "b" 2 true 0] 0
      (QuizSystem.adjust_difficulty (updateStats sFix qFix 2 true 2)) rfl⟩
